import Mathlib

/-!
# Verification of the UTM receiver service

Shallow embedding of the two source files of the repository:

* `server/src/db.py`   — the storage gateway (`Database.connect`,
  `Database.disconnect`, `Database.insert_click`), which serializes the
  captured parameters with `json.dumps` before handing them to the
  `INSERT` statement;
* `server/src/main.py`  — the HTTP handler (`health_check`, `track_utm`),
  which filters the query string to the `utm_`-prefixed keys, calls the
  gateway, and renders one of two inline HTML templates.

Conventions of the embedding:

* Python exceptions are values of `PyError` (class name + message);
  fallible operations return an `Option PyError` alongside their result.
* The outcome of each effect that can fail outside the modelled code
  (reading `DATABASE_URL`, `asyncpg.create_pool`, the two bootstrap
  statements, the `INSERT` execution) is an oracle field of `World`.
* Strings are Lean `String`s; a Python `str` is a sequence of unicode
  scalar values, as is a Lean `String`.
* Literal braces inside string literals are written with the escapes
  `\x7b` and `\x7d`.
-/

namespace UtmReceiver

/-- A raised Python exception, reduced to what the code observes of it:
`type(e).__name__` and `str(e)`. -/
structure PyError where
  name : String
  msg : String
deriving DecidableEq, Repr

/-! ## `json.dumps` for string-to-string dictionaries (db.py line 79)

`db.insert_click` serializes `utm_params` with `json.dumps(utm_params)`
(default options: `ensure_ascii=True`, item separator `", "`, key
separator `": "`).  The encoder escapes `"` and `\`, uses the short
escapes for BS, TAB, LF, FF, CR, and `\uXXXX` (lowercase hex, surrogate
pairs above the BMP) for every other character outside `0x20`–`0x7e`. -/

/-- Lowercase hexadecimal digit for a nibble, as produced by CPython's
`'\\u\x7b0:04x\x7d'.format` in the JSON encoder. -/
def hexDig (n : Nat) : Char :=
  if n < 10 then Char.ofNat (48 + n) else Char.ofNat (87 + n)

/-- The left brace character `U+007B`. -/
def lbrace : Char := Char.ofNat 123

/-- The right brace character `U+007D`. -/
def rbrace : Char := Char.ofNat 125

/-- The four hex digits of a code unit `m ≤ 0xFFFF`. -/
def uEscDigits (m : Nat) : List Char :=
  [hexDig (m / 4096 % 16), hexDig (m / 256 % 16), hexDig (m / 16 % 16),
    hexDig (m % 16)]

/-- A `\uXXXX` escape for a code unit `m ≤ 0xFFFF`. -/
def uEsc (m : Nat) : List Char :=
  '\\' :: 'u' :: uEscDigits m

/-- How `json.dumps` (with its default `ensure_ascii=True`) writes one
character of a string value: the two quoted specials, the five short
escapes, `\uXXXX` (with a UTF-16 surrogate pair above the BMP) for other
non-printable-ASCII characters, and the character itself otherwise. -/
def encodeChar (c : Char) : List Char :=
  if c = '"' then ['\\', '"']
  else if c = '\\' then ['\\', '\\']
  else if c = Char.ofNat 8 then ['\\', 'b']
  else if c = Char.ofNat 9 then ['\\', 't']
  else if c = Char.ofNat 10 then ['\\', 'n']
  else if c = Char.ofNat 12 then ['\\', 'f']
  else if c = Char.ofNat 13 then ['\\', 'r']
  else if c.toNat < 32 ∨ 126 < c.toNat then
    if c.toNat ≤ 0xFFFF then uEsc c.toNat
    else
      uEsc (0xD800 + (c.toNat - 0x10000) / 0x400) ++
        uEsc (0xDC00 + (c.toNat - 0x10000) % 0x400)
  else [c]

/-- Body of a JSON string literal: each character escaped in turn. -/
def encodeBody : List Char → List Char
  | [] => []
  | c :: cs => encodeChar c ++ encodeBody cs

/-- A complete JSON string literal, quotes included. -/
def encodeString (s : String) : List Char :=
  '"' :: (encodeBody s.data ++ ['"'])

/-- One `"key": "value"` member, with `json.dumps`'s default key
separator `": "`. -/
def memberEnc (p : String × String) : List Char :=
  encodeString p.1 ++ ':' :: ' ' :: encodeString p.2

/-- The members of an object joined by the default item separator `", "`. -/
def dumpsPairs : List (String × String) → List Char
  | [] => []
  | [p] => memberEnc p
  | p :: q :: rest => memberEnc p ++ ',' :: ' ' :: dumpsPairs (q :: rest)

/-- `json.dumps` of a string-to-string dictionary, the dictionary given
as its (ordered) list of key–value pairs. -/
def json_dumps (l : List (String × String)) : String :=
  String.mk (lbrace :: (dumpsPairs l ++ [rbrace]))

/-! ## A JSON reader for the stored document

The round-trip claim compares the mapping handed to `insert_click` with
the mapping read back from the stored JSONB document.  `json_loads`
below reads the canonical form `json.dumps` emits for a string-to-string
dictionary (it rejects anything else, which `json.dumps` never produces
for such input). -/

/-- Value of one hexadecimal digit, upper or lower case. -/
def hexVal (c : Char) : Option Nat :=
  if 48 ≤ c.toNat ∧ c.toNat ≤ 57 then some (c.toNat - 48)
  else if 97 ≤ c.toNat ∧ c.toNat ≤ 102 then some (c.toNat - 87)
  else if 65 ≤ c.toNat ∧ c.toNat ≤ 70 then some (c.toNat - 55)
  else none

/-- Prepend a decoded character to the result of parsing the remainder
of a string literal. -/
def consParsed (c : Char) :
    Option (List Char × List Char) → Option (List Char × List Char) :=
  Option.map (fun p => (c :: p.1, p.2))

/-- Decode the low half of a surrogate pair: the input starts right
after the four hex digits of the high surrogate `m`, and must carry a
second `\uXXXX` escape holding a low surrogate. -/
def decodeULow (m : Nat) : List Char → Option (Char × Nat)
  | bs :: u2 :: a2 :: b2 :: c3 :: d2 :: _ =>
    if bs = '\\' ∧ u2 = 'u' then
      match hexVal a2, hexVal b2, hexVal c3, hexVal d2 with
      | some x2, some y2, some z2, some w2 =>
        if 0xDC00 ≤ ((x2 * 16 + y2) * 16 + z2) * 16 + w2 ∧
            ((x2 * 16 + y2) * 16 + z2) * 16 + w2 ≤ 0xDFFF then
          some
            (Char.ofNat
              (0x10000 + (m - 0xD800) * 0x400 +
                (((x2 * 16 + y2) * 16 + z2) * 16 + w2 - 0xDC00)),
              11)
        else none
      | _, _, _, _ => none
    else none
  | _ => none

/-- Decode a `\uXXXX` escape: the input starts right after the `u`.
A high surrogate must be followed by a second escape holding the low
surrogate (the pair is recombined); a lone low surrogate is rejected. -/
def decodeU : List Char → Option (Char × Nat)
  | a :: b :: c2 :: d :: rest3 =>
    match hexVal a, hexVal b, hexVal c2, hexVal d with
    | some x, some y, some z, some w =>
      if 0xD800 ≤ ((x * 16 + y) * 16 + z) * 16 + w ∧
          ((x * 16 + y) * 16 + z) * 16 + w ≤ 0xDBFF then
        decodeULow (((x * 16 + y) * 16 + z) * 16 + w) rest3
      else if 0xDC00 ≤ ((x * 16 + y) * 16 + z) * 16 + w ∧
          ((x * 16 + y) * 16 + z) * 16 + w ≤ 0xDFFF then none
      else some (Char.ofNat (((x * 16 + y) * 16 + z) * 16 + w), 5)
    | _, _, _, _ => none
  | _ => none

/-- Decode one backslash escape (the input starts right after the
backslash); return the decoded character and how many characters of the
input the escape used. -/
def decodeEsc : List Char → Option (Char × Nat)
  | [] => none
  | e :: rest2 =>
    if e = '"' then some ('"', 1)
    else if e = '\\' then some ('\\', 1)
    else if e = '/' then some ('/', 1)
    else if e = 'b' then some (Char.ofNat 8, 1)
    else if e = 'f' then some (Char.ofNat 12, 1)
    else if e = 'n' then some (Char.ofNat 10, 1)
    else if e = 'r' then some (Char.ofNat 13, 1)
    else if e = 't' then some (Char.ofNat 9, 1)
    else if e = 'u' then decodeU rest2
    else none

/-- Read the body of a JSON string literal up to and including its
closing quote; return the decoded characters and the unconsumed input. -/
def parseJString (l : List Char) : Option (List Char × List Char) :=
  match l with
  | [] => none
  | c :: rest =>
    if c = '"' then some ([], rest)
    else if c = '\\' then
      match decodeEsc rest with
      | some (ch, n) => consParsed ch (parseJString (rest.drop n))
      | none => none
    else consParsed c (parseJString rest)
termination_by l.length
decreasing_by
  all_goals simp only [List.length_cons, List.length_drop]
  all_goals omega

/-- Read the members of a non-empty object, starting just after the
opening brace and consuming through the closing brace, which must end
the input.  `fuel` bounds the number of members. -/
def parseMembers : Nat → List Char → Option (List (String × String))
  | 0, _ => none
  | fuel + 1, '"' :: rest =>
    match parseJString rest with
    | none => none
    | some (k, rest2) =>
      match rest2 with
      | ':' :: ' ' :: '"' :: rest3 =>
        (match parseJString rest3 with
         | none => none
         | some (v, rest4) =>
           match rest4 with
           | [] => none
           | c :: rest5 =>
             if c = rbrace then
               if rest5 = [] then some [(String.mk k, String.mk v)] else none
             else if c = ',' then
               match rest5 with
               | ' ' :: rest6 =>
                 (parseMembers fuel rest6).map
                   (fun ms => (String.mk k, String.mk v) :: ms)
               | _ => none
             else none)
      | _ => none
  | _ + 1, _ => none

/-- Read a whole serialized string-to-string object, requiring the input
to be consumed completely. -/
def json_loads (s : String) : Option (List (String × String)) :=
  match s.data with
  | [] => none
  | c :: rest =>
    if c = lbrace then
      match rest with
      | [] => none
      | d :: rest2 =>
        if d = rbrace then (if rest2 = [] then some [] else none)
        else parseMembers rest.length rest
    else none

/-! ## The request's query parameters (main.py line 39)

`request.query_params` is Starlette's `QueryParams`, an immutable
multidict: it keeps the raw pairs of the query string in order, and its
`.items()` view is the view of a Python `dict` built from those pairs —
one entry per key, placed at the key's first occurrence, holding the
value of the key's last occurrence.  The handler's comprehension
`\x7bk: v for k, v in request.query_params.items() if k.startswith('utm_')\x7d`
therefore filters that deduplicated view. -/

/-- `d[k] = v` on a Python dict represented as its ordered entry list:
replace the value if the key is present, append the entry otherwise. -/
def dictUpdate (d : List (String × String)) (k v : String) :
    List (String × String) :=
  if d.any (fun p => p.1 = k) then
    d.map (fun p => if p.1 = k then (k, v) else p)
  else d ++ [(k, v)]

/-- The Python dict built from a list of pairs, left to right — the
`.items()` view of Starlette's `QueryParams`. -/
def pyDict (l : List (String × String)) : List (String × String) :=
  l.foldl (fun d p => dictUpdate d p.1 p.2) []

/-- What the track handler sees of an HTTP request: the parsed query
string as its raw ordered key–value pairs, `request.client` (`none`
when the transport-level peer address is unavailable, in which case
`request.client.host` raises `AttributeError`), and the header mapping
with lower-case keys. -/
structure TrackRequest where
  query_params : List (String × String)
  client : Option String
  headers : List (String × String)

/-- Python's `str.startswith(prefix)`: the prefix test on the sequence
of unicode scalar values. -/
def pyStartswith (s pre : String) : Bool :=
  pre.data.isPrefixOf s.data

/-- `request.headers.get(key, default)`. -/
def headersGet (headers : List (String × String)) (key dflt : String) :
    String :=
  match headers.find? (fun p => p.1 = key) with
  | some p => p.2
  | none => dflt

/-- main.py line 39: the dict comprehension keeping exactly the
`utm_`-prefixed keys of the query-parameter view. -/
def utm_params (req : TrackRequest) : List (String × String) :=
  (pyDict req.query_params).filter (fun p => pyStartswith p.1 "utm_")

/-! ## The storage gateway (db.py) -/

/-- One row of the `utm_clicks` table as `insert_click` writes it: the
`utm_params` JSONB column receives the `json.dumps` serialization of
the captured parameters; `id` and `created_at` are server-assigned and
not modelled beyond the row's position in the table. -/
structure ClickRow where
  utm_params : String
  ip_address : String
  user_agent : String
  referrer : String
deriving DecidableEq, Repr

/-- The mutable state of the `Database` object together with the table
it writes to: whether `self.pool` is set, and the rows of `utm_clicks`. -/
structure DbState where
  poolInitialized : Bool
  rows : List ClickRow
deriving DecidableEq, Repr

/-- Oracles for every effect of the storage driver that can fail
outside the modelled code: the `DATABASE_URL` environment variable, and
the outcomes (`none` = success) of `asyncpg.create_pool`, the
`CREATE TABLE IF NOT EXISTS` statement, the `SELECT 1` verification
probe, and the `INSERT` execution. -/
structure World where
  database_url : Option String
  createPoolOutcome : Option PyError
  createTableOutcome : Option PyError
  verifyOutcome : Option PyError
  execOutcome : Option PyError

/-- db.py `Database.connect` (lines 14–56), returning the raised error
if any, the resulting state, and the error-level log lines it emits.
`self.pool` is assigned as soon as `create_pool` succeeds (line 28), so
a later bootstrap failure still leaves the pool initialized.  Neither a
`create_pool` failure nor a `CREATE TABLE` failure is logged by
`connect` itself; the missing-URL error and the verification failure
are. -/
def Database.connect (w : World) (st : DbState) :
    Option PyError × DbState × List String :=
  match w.database_url with
  | none =>
    (some ⟨"ValueError", "DATABASE_URL environment variable is required"⟩,
      st, ["DATABASE_URL environment variable is required but not set"])
  | some _ =>
    match w.createPoolOutcome with
    | some e => (some e, st, [])
    | none =>
      let st1 : DbState := { st with poolInitialized := true }
      match w.createTableOutcome with
      | some e => (some e, st1, [])
      | none =>
        match w.verifyOutcome with
        | some e =>
          (some e, st1,
            ["utm_clicks table verification failed: " ++ e.name ++ ": "
              ++ e.msg])
        | none => (none, st1, [])

/-- db.py `Database.insert_click` (lines 64–87): lazily `connect` if
`self.pool` is unset (a `connect` failure propagates from outside the
`try` block), then run the `INSERT`; on an execution error, log
`Database insert failed: <type>: <message>` and re-raise; on success,
append one row whose `utm_params` column is `json.dumps(utm_params)`. -/
def Database.insert_click (w : World) (st : DbState)
    (params : List (String × String)) (ip ua ref : String) :
    Option PyError × DbState × List String :=
  match (if st.poolInitialized then (none, st, []) else Database.connect w st) with
  | (some e, st1, logs) => (some e, st1, logs)
  | (none, st1, logs) =>
    match w.execOutcome with
    | some e =>
      (some e, st1,
        logs ++ ["Database insert failed: " ++ e.name ++ ": " ++ e.msg])
    | none =>
      (none,
        { st1 with
            rows := st1.rows ++ [⟨json_dumps params, ip, ua, ref⟩] },
        logs)

/-! ## The HTTP handler (main.py) -/

/-- An HTTP response: status code and body. -/
structure Response where
  status : Nat
  content : String
deriving DecidableEq

/-- main.py lines 30–33: the `/health` route.  The handler body refers
to nothing but the literal it returns — in particular not to the
database — so the embedding takes the storage state and the world as
arguments only to record that the response is independent of them.
FastAPI serializes the returned dict as compact JSON with status 200. -/
def health_check (_w : World) (_st : DbState) : Response :=
  { status := 200,
    content := String.mk (lbrace :: "\"status\":\"ok\"".data ++ [rbrace]) }

/-- The error page returned by both `except` blocks of `track_utm`
(main.py lines 62–75 and 179–192; the two literals are identical). -/
def error_html : String :=
  "<!DOCTYPE html>\n<html>\n<head>\n    <title>UTM Receiver - Error</title>\n    <style>\n        body \x7b font-family: Arial, sans-serif; max-width: 600px; margin: 50px auto; padding: 20px; text-align: center; \x7d\n        .error \x7b color: #dc3545; font-weight: bold; \x7d\n    </style>\n</head>\n<body>\n    <h1>📊 UTM Receiver</h1>\n    <p class=\"error\">Failed to log UTM parameters. Please try again later.</p>\n</body>\n</html>"

/-- main.py lines 79–84: one `<li>` per captured pair, rendered with
`str.format` (no HTML escaping), or the single placeholder item when no
parameter matched. -/
def utm_html_items (params : List (String × String)) : List String :=
  match params with
  | [] => ["<li>• No UTM parameters detected</li>"]
  | _ :: _ => params.map (fun p => "<li>• " ++ p.1 ++ ": " ++ p.2 ++ "</li>")

/-- Python's `sep.join(items)` (main.py line 86 uses a newline plus
twelve spaces as separator). -/
def pyJoin (sep : String) : List String → String
  | [] => ""
  | [x] => x
  | x :: y :: rest => x ++ sep ++ pyJoin sep (y :: rest)

/-- The success template (main.py lines 89–170) up to the `\x7b0\x7d`
slot, after `str.format` has rewritten `\x7b\x7b`/`\x7d\x7d` to single
braces. -/
def success_pre : String :=
  "<!DOCTYPE html>\n<html>\n<head>\n    <title>UTM Receiver</title>\n    <style>\n        body \x7b\n            font-family: Arial, sans-serif;\n            max-width: 600px;\n            margin: 50px auto;\n            padding: 20px;\n            border: 1px solid #ddd;\n            border-radius: 8px;\n            background-color: #f9f9f9;\n        \x7d\n        h1 \x7b\n            color: #333;\n            text-align: center;\n        \x7d\n        .description \x7b\n            color: #666;\n            text-align: center;\n            margin-bottom: 30px;\n        \x7d\n        .success \x7b\n            color: #28a745;\n            font-weight: bold;\n            text-align: center;\n            margin-bottom: 20px;\n        \x7d\n        .parameters \x7b\n            background-color: white;\n            padding: 20px;\n            border-radius: 5px;\n            border-left: 4px solid #007bff;\n            margin-bottom: 20px;\n        \x7d\n        .parameters h3 \x7b\n            margin-top: 0;\n            color: #333;\n        \x7d\n        .parameters ul \x7b\n            list-style-type: none;\n            padding: 0;\n        \x7d\n        .parameters li \x7b\n            padding: 5px 0;\n            border-bottom: 1px solid #eee;\n        \x7d\n        .parameters li:last-child \x7b\n            border-bottom: none;\n        \x7d\n        .footer \x7b\n            text-align: center;\n            color: #999;\n            font-style: italic;\n            margin-top: 30px;\n        \x7d\n    </style>\n</head>\n<body>\n    <h1>📊 UTM Receiver</h1>\n\x20\x20\x20\x20\n    <p class=\"description\">\n        This link is used to track marketing campaigns.\n    </p>\n\x20\x20\x20\x20\n    <p class=\"success\">\n        Your visit has been recorded successfully.\n    </p>\n\x20\x20\x20\x20\n    <div class=\"parameters\">\n        <h3>Captured parameters:</h3>\n        <ul>\n            "

/-- The success template after the `\x7b0\x7d` slot. -/
def success_post : String :=
  "\n        </ul>\n    </div>\n\x20\x20\x20\x20\n    <p class=\"footer\">\n        You may now close this page.\n    </p>\n</body>\n</html>"

/-- main.py line 172: `html_template.format(utm_html_list)`. -/
def success_page (params : List (String × String)) : String :=
  success_pre ++ pyJoin "\n            " (utm_html_items params) ++
    success_post

/-- main.py lines 35–193, the `/track` route.  Reading
`request.client.host` on line 42 raises before any storage call when
`request.client` is `None`; that exception reaches the outer `except`
(line 174), which answers with the error page and status 500.  A
storage failure is caught by the inner `except` (line 59) with the same
page and status.  On success the page built from the captured
parameters is returned with `HTMLResponse`'s default status 200. -/
def track_utm (w : World) (req : TrackRequest) (st : DbState) :
    Response × DbState :=
  match req.client with
  | none => ({ status := 500, content := error_html }, st)
  | some ip =>
    let params := utm_params req
    let ua := headersGet req.headers "user-agent" ""
    let ref := headersGet req.headers "referer" ""
    match Database.insert_click w st params ip ua ref with
    | (some _, st1, _) => ({ status := 500, content := error_html }, st1)
    | (none, st1, _) =>
      ({ status := 200, content := success_page params }, st1)

/-! ## Round-trip lemmas for the JSON serialization -/

theorem hexVal_hexDig : ∀ x : Nat, x < 16 → hexVal (hexDig x) = some x := by
  decide

theorem uEsc_digits_val (m : Nat) (hm : m ≤ 0xFFFF) :
    ((m / 4096 % 16 * 16 + m / 256 % 16) * 16 + m / 16 % 16) * 16 + m % 16
      = m := by
  omega

/-- `decodeU` on four hex digits of `m` followed by anything: branch on
whether `m` is a surrogate. -/
theorem decodeU_digits (m : Nat) (hm : m ≤ 0xFFFF) (tail : List Char) :
    decodeU (uEscDigits m ++ tail) =
      (if 0xD800 ≤ m ∧ m ≤ 0xDBFF then decodeULow m tail
       else if 0xDC00 ≤ m ∧ m ≤ 0xDFFF then none
       else some (Char.ofNat m, 5)) := by
  have h1 := hexVal_hexDig (m / 4096 % 16) (by omega)
  have h2 := hexVal_hexDig (m / 256 % 16) (by omega)
  have h3 := hexVal_hexDig (m / 16 % 16) (by omega)
  have h4 := hexVal_hexDig (m % 16) (by omega)
  simp only [uEscDigits, List.cons_append, List.nil_append, decodeU,
    h1, h2, h3, h4, uEsc_digits_val m hm]

/-- Decoding the second escape of a surrogate pair. -/
theorem decodeULow_pair (m lo : Nat) (hlo1 : 0xDC00 ≤ lo)
    (hlo2 : lo ≤ 0xDFFF) (l : List Char) :
    decodeULow m ('\\' :: 'u' :: (uEscDigits lo ++ l)) =
      some (Char.ofNat (0x10000 + (m - 0xD800) * 0x400 + (lo - 0xDC00)), 11) := by
  have h5 := hexVal_hexDig (lo / 4096 % 16) (by omega)
  have h6 := hexVal_hexDig (lo / 256 % 16) (by omega)
  have h7 := hexVal_hexDig (lo / 16 % 16) (by omega)
  have h8 := hexVal_hexDig (lo % 16) (by omega)
  simp only [uEscDigits, List.cons_append, List.nil_append, decodeULow,
    h5, h6, h7, h8, uEsc_digits_val lo (by omega)]
  rw [if_pos (by simp), if_pos (by omega)]

/-- Decoding a `\uXXXX` escape of a non-surrogate BMP code point. -/
theorem decodeU_bmp (m : Nat) (hm : m ≤ 0xFFFF)
    (hs : ¬(0xD800 ≤ m ∧ m ≤ 0xDFFF)) (l : List Char) :
    decodeU (uEscDigits m ++ l) = some (Char.ofNat m, 5) := by
  rw [decodeU_digits m hm, if_neg (by omega), if_neg (by omega)]

/-- Decoding the surrogate-pair escape of a supplementary code point. -/
theorem decodeU_sur (n : Nat) (hn1 : 0x10000 ≤ n) (hn2 : n < 0x110000)
    (l : List Char) :
    decodeU (uEscDigits (0xD800 + (n - 0x10000) / 0x400) ++
        ('\\' :: 'u' :: (uEscDigits (0xDC00 + (n - 0x10000) % 0x400) ++ l)))
      = some (Char.ofNat n, 11) := by
  rw [decodeU_digits _ (by omega), if_pos (by omega),
    decodeULow_pair _ _ (by omega) (by omega) l]
  have harith : 0x10000 +
      (0xD800 + (n - 0x10000) / 0x400 - 0xD800) * 0x400 +
      (0xDC00 + (n - 0x10000) % 0x400 - 0xDC00) = n := by omega
  rw [harith]

/-- `parseJString` stops at an unescaped quote. -/
theorem parseJString_quote (l : List Char) :
    parseJString ('"' :: l) = some ([], l) := by
  rw [parseJString]
  simp

/-- `parseJString` after a backslash follows `decodeEsc`. -/
theorem parseJString_esc_some {l : List Char} {ch : Char} {n : Nat}
    (h : decodeEsc l = some (ch, n)) :
    parseJString ('\\' :: l) = consParsed ch (parseJString (l.drop n)) := by
  rw [parseJString, if_neg (by decide), if_pos (by decide), h]

/-- A `\u` escape defers to `decodeU`. -/
theorem decodeEsc_u (rest2 : List Char) :
    decodeEsc ('u' :: rest2) = decodeU rest2 := rfl

/-- `parseJString` consumes an ordinary character as itself. -/
theorem parseJString_lit {c : Char} (h1 : ¬c = '"') (h2 : ¬c = '\\')
    (l : List Char) :
    parseJString (c :: l) = consParsed c (parseJString l) := by
  rw [parseJString, if_neg h1, if_neg h2]

/-- The central escape round trip: parsing what `encodeChar` wrote
yields the original character and consumes exactly the escape. -/
theorem parseJString_encodeChar (c : Char) (l : List Char) :
    parseJString (encodeChar c ++ l) = consParsed c (parseJString l) := by
  have hvalid : c.toNat < 0xD800 ∨ (0xDFFF < c.toNat ∧ c.toNat < 0x110000) := by
    rcases c.valid with h | ⟨ha, hb⟩
    · exact Or.inl h
    · exact Or.inr ⟨ha, hb⟩
  by_cases h1 : c = '"'
  · subst h1
    rw [show encodeChar '"' ++ l = '\\' :: ('"' :: l) from rfl,
      parseJString_esc_some
        (show decodeEsc ('"' :: l) = some ('"', 1) from rfl)]
    rfl
  · by_cases h2 : c = '\\'
    · subst h2
      rw [show encodeChar '\\' ++ l = '\\' :: ('\\' :: l) from rfl,
        parseJString_esc_some
          (show decodeEsc ('\\' :: l) = some ('\\', 1) from rfl)]
      rfl
    · by_cases h3 : c = Char.ofNat 8
      · subst h3
        rw [show encodeChar (Char.ofNat 8) ++ l = '\\' :: ('b' :: l) from rfl,
          parseJString_esc_some
            (show decodeEsc ('b' :: l) = some (Char.ofNat 8, 1) from rfl)]
        rfl
      · by_cases h4 : c = Char.ofNat 9
        · subst h4
          rw [show encodeChar (Char.ofNat 9) ++ l = '\\' :: ('t' :: l) from rfl,
            parseJString_esc_some
              (show decodeEsc ('t' :: l) = some (Char.ofNat 9, 1) from rfl)]
          rfl
        · by_cases h5 : c = Char.ofNat 10
          · subst h5
            rw [show encodeChar (Char.ofNat 10) ++ l = '\\' :: ('n' :: l) from
                rfl,
              parseJString_esc_some
                (show decodeEsc ('n' :: l) = some (Char.ofNat 10, 1) from rfl)]
            rfl
          · by_cases h6 : c = Char.ofNat 12
            · subst h6
              rw [show encodeChar (Char.ofNat 12) ++ l = '\\' :: ('f' :: l)
                  from rfl,
                parseJString_esc_some
                  (show decodeEsc ('f' :: l) = some (Char.ofNat 12, 1) from
                    rfl)]
              rfl
            · by_cases h7 : c = Char.ofNat 13
              · subst h7
                rw [show encodeChar (Char.ofNat 13) ++ l = '\\' :: ('r' :: l)
                    from rfl,
                  parseJString_esc_some
                    (show decodeEsc ('r' :: l) = some (Char.ofNat 13, 1) from
                      rfl)]
                rfl
              · rw [encodeChar, if_neg h1, if_neg h2, if_neg h3, if_neg h4,
                  if_neg h5, if_neg h6, if_neg h7]
                by_cases h8 : c.toNat < 32 ∨ 126 < c.toNat
                · rw [if_pos h8]
                  by_cases h9 : c.toNat ≤ 0xFFFF
                  · rw [if_pos h9,
                      show uEsc c.toNat ++ l =
                        '\\' :: ('u' :: (uEscDigits c.toNat ++ l)) from rfl,
                      parseJString_esc_some
                        (show decodeEsc ('u' :: (uEscDigits c.toNat ++ l)) =
                            some (Char.ofNat c.toNat, 5) from by
                          rw [decodeEsc_u,
                            decodeU_bmp c.toNat h9 (by omega)]),
                      Char.ofNat_toNat]
                    rfl
                  · rw [if_neg h9,
                      show (uEsc (0xD800 + (c.toNat - 0x10000) / 0x400) ++
                          uEsc (0xDC00 + (c.toNat - 0x10000) % 0x400)) ++ l =
                        '\\' :: ('u' ::
                          (uEscDigits (0xD800 + (c.toNat - 0x10000) / 0x400) ++
                            ('\\' :: 'u' ::
                              (uEscDigits
                                  (0xDC00 + (c.toNat - 0x10000) % 0x400) ++
                                l)))) from rfl,
                      parseJString_esc_some
                        (show decodeEsc ('u' ::
                            (uEscDigits (0xD800 + (c.toNat - 0x10000) / 0x400)
                              ++ ('\\' :: 'u' ::
                                (uEscDigits
                                    (0xDC00 + (c.toNat - 0x10000) % 0x400) ++
                                  l)))) = some (Char.ofNat c.toNat, 11) from by
                          rw [decodeEsc_u,
                            decodeU_sur c.toNat (by omega) (by omega)]),
                      Char.ofNat_toNat]
                    rfl
                · rw [if_neg h8, show [c] ++ l = c :: l from rfl]
                  exact parseJString_lit h1 h2 l

/-- Rebuilding a string from its character data is the identity. -/
theorem string_mk_data (s : String) : String.mk s.data = s := rfl

/-- Parsing an encoded string body up to its closing quote restores the
body. -/
theorem parseJString_encodeBody (s rest : List Char) :
    parseJString (encodeBody s ++ '"' :: rest) = some (s, rest) := by
  induction s with
  | nil =>
    rw [show encodeBody [] ++ '"' :: rest = '"' :: rest from rfl,
      parseJString_quote]
  | cons c cs ih =>
    rw [show encodeBody (c :: cs) ++ '"' :: rest =
          encodeChar c ++ (encodeBody cs ++ '"' :: rest) from by
        rw [encodeBody, List.append_assoc],
      parseJString_encodeChar, ih]
    rfl

/-- The canonical shape of one encoded member followed by anything. -/
theorem memberEnc_shape (p : String × String) (tail : List Char) :
    memberEnc p ++ tail =
      '"' :: (encodeBody p.1.data ++ '"' :: (':' :: ' ' :: '"' ::
        (encodeBody p.2.data ++ '"' :: tail))) := by
  simp [memberEnc, encodeString]

/-- An encoded member is nonempty. -/
theorem one_le_memberEnc_length (p : String × String) :
    1 ≤ (memberEnc p).length := by
  have h := memberEnc_shape p []
  rw [List.append_nil] at h
  rw [h]
  simp

/-- The serialized members are at least as many characters as there are
members. -/
theorem dumpsPairs_length (l : List (String × String)) :
    l.length ≤ (dumpsPairs l).length := by
  induction l with
  | nil => simp [dumpsPairs]
  | cons p t ih =>
    cases t with
    | nil =>
      have := one_le_memberEnc_length p
      simpa [dumpsPairs] using this
    | cons q rest =>
      have h1 := one_le_memberEnc_length p
      rw [show dumpsPairs (p :: q :: rest) =
            memberEnc p ++ ',' :: ' ' :: dumpsPairs (q :: rest) from rfl]
      simp only [List.length_append, List.length_cons] at *
      omega

/-- The serialized members of a nonempty dictionary start with a quote. -/
theorem dumpsPairs_cons_shape (p : String × String)
    (t : List (String × String)) :
    ∃ tl, dumpsPairs (p :: t) = '"' :: tl := by
  cases t with
  | nil =>
    have h := memberEnc_shape p []
    rw [List.append_nil] at h
    exact ⟨_, h⟩
  | cons q rest =>
    have h := memberEnc_shape p (',' :: ' ' :: dumpsPairs (q :: rest))
    exact ⟨_, h⟩

/-- Reading back the serialized members of a nonempty dictionary (with
enough fuel) restores every pair, in order, duplicates included. -/
theorem parseMembers_dumpsPairs (l : List (String × String)) :
    ∀ fuel : Nat, l ≠ [] → l.length ≤ fuel →
      parseMembers fuel (dumpsPairs l ++ [rbrace]) = some l := by
  induction l with
  | nil => intro fuel h _; exact absurd rfl h
  | cons p t ih =>
    intro fuel _ hlen
    obtain ⟨f, rfl⟩ : ∃ f, fuel = f + 1 :=
      ⟨fuel - 1, by simp at hlen; omega⟩
    cases t with
    | nil =>
      rw [show dumpsPairs [p] ++ [rbrace] = memberEnc p ++ [rbrace] from rfl,
        memberEnc_shape]
      simp only [parseMembers, parseJString_encodeBody]
      rw [if_pos trivial, if_pos trivial]
    | cons q rest =>
      rw [show dumpsPairs (p :: q :: rest) ++ [rbrace] =
            memberEnc p ++
              (',' :: ' ' :: (dumpsPairs (q :: rest) ++ [rbrace])) from by
          rw [show dumpsPairs (p :: q :: rest) =
                memberEnc p ++ ',' :: ' ' :: dumpsPairs (q :: rest) from rfl,
            List.append_assoc]
          rfl,
        memberEnc_shape]
      simp only [parseMembers, parseJString_encodeBody]
      rw [if_pos trivial, ih f (by simp) (by simp at hlen ⊢; omega)]
      rfl

/-- Full round trip of the storage serialization: reading the document
`json.dumps` wrote restores exactly the original association list. -/
theorem json_loads_dumps (l : List (String × String)) :
    json_loads (json_dumps l) = some l := by
  cases l with
  | nil => rfl
  | cons p t =>
    obtain ⟨tl, htl⟩ := dumpsPairs_cons_shape p t
    have hlen := dumpsPairs_length (p :: t)
    rw [json_dumps, json_loads]
    simp only [string_mk_data]
    rw [if_pos trivial]
    rw [show dumpsPairs (p :: t) ++ [rbrace] = '"' :: (tl ++ [rbrace]) from by
        rw [htl]; rfl]
    rw [show (match ('"' :: (tl ++ [rbrace]) : List Char) with
        | [] => none
        | d :: rest2 =>
          if d = rbrace then (if rest2 = [] then some [] else none)
          else parseMembers ('"' :: (tl ++ [rbrace])).length
            ('"' :: (tl ++ [rbrace]))) =
        (if ('"' : Char) = rbrace then
          (if tl ++ [rbrace] = [] then some [] else none)
        else parseMembers ('"' :: (tl ++ [rbrace])).length
          ('"' :: (tl ++ [rbrace]))) from rfl]
    rw [if_neg (by decide)]
    rw [show ('"' :: (tl ++ [rbrace]) : List Char) = ('"' :: tl) ++ [rbrace]
        from rfl, ← htl]
    exact parseMembers_dumpsPairs (p :: t) _ (by simp)
      (by simp only [List.length_append, List.length_cons] at *; omega)

/-! ## Lemmas about the Python dict view of the query string -/

/-- Membership after one dict assignment. -/
theorem mem_dictUpdate {d : List (String × String)} {k0 v0 k v : String} :
    (k, v) ∈ dictUpdate d k0 v0 ↔
      ((k = k0 ∧ v = v0) ∨ (¬k = k0 ∧ (k, v) ∈ d)) := by
  unfold dictUpdate
  split
  · rename_i hany
    rw [List.mem_map]
    constructor
    · rintro ⟨⟨pk, pv⟩, hp, he⟩
      by_cases hk : pk = k0
      · rw [if_pos (by simpa using hk)] at he
        obtain ⟨h1, h2⟩ := Prod.mk.injEq .. ▸ he
        exact Or.inl ⟨h1.symm, h2.symm⟩
      · rw [if_neg (by simpa using hk)] at he
        obtain ⟨h1, h2⟩ := Prod.mk.injEq .. ▸ he
        subst h1; subst h2
        exact Or.inr ⟨hk, hp⟩
    · rintro (⟨rfl, rfl⟩ | ⟨hk, hm⟩)
      · rw [List.any_eq_true] at hany
        obtain ⟨⟨pk, pv⟩, hp, hpk⟩ := hany
        refine ⟨(pk, pv), hp, ?_⟩
        rw [if_pos (by simpa using hpk)]
      · exact ⟨(k, v), hm, by rw [if_neg (by simpa using hk)]⟩
  · rename_i hany
    rw [List.mem_append, List.mem_singleton]
    constructor
    · rintro (hm | he)
      · refine Or.inr ⟨?_, hm⟩
        intro hk
        subst hk
        exact hany (List.any_eq_true.mpr ⟨(k, v), hm, by simp⟩)
      · obtain ⟨h1, h2⟩ := Prod.mk.injEq .. ▸ he
        exact Or.inl ⟨h1, h2⟩
    · rintro (⟨rfl, rfl⟩ | ⟨_, hm⟩)
      · exact Or.inr rfl
      · exact Or.inl hm

/-- `pyDict` over a snoc runs one more assignment. -/
theorem pyDict_snoc (l : List (String × String)) (a : String × String) :
    pyDict (l ++ [a]) = dictUpdate (pyDict l) a.1 a.2 := by
  unfold pyDict
  rw [List.foldl_append]
  rfl

/-- Membership in the dict view: the pair is present exactly when the
key's last occurrence in the raw pair list carries that value. -/
theorem mem_pyDict {l : List (String × String)} {k v : String} :
    (k, v) ∈ pyDict l ↔
      l.reverse.find? (fun p => p.1 = k) = some (k, v) := by
  induction l using List.reverseRecOn with
  | nil => simp [pyDict]
  | append_singleton l a ih =>
    obtain ⟨ak, av⟩ := a
    rw [pyDict_snoc, mem_dictUpdate, List.reverse_append,
      List.reverse_singleton, List.singleton_append]
    by_cases hk : ak = k
    · subst hk
      rw [List.find?_cons_of_pos _ (by simp)]
      simp [eq_comm]
    · have hk2 : ¬k = ak := fun h => hk h.symm
      rw [List.find?_cons_of_neg _ (by simpa using hk)]
      simp [hk2, ih]

/-- Membership in the captured parameters: exactly the dict-view pairs
whose key carries the `utm_` prefix. -/
theorem mem_utm_params {req : TrackRequest} {k v : String} :
    (k, v) ∈ utm_params req ↔
      ((k, v) ∈ pyDict req.query_params ∧ pyStartswith k "utm_" = true) := by
  unfold utm_params
  rw [List.mem_filter]

/-! ## Lemmas about the storage gateway -/

/-- A successful append leaves the pool initialized and appends exactly
one row holding the `json.dumps` serialization of the parameters; the
`INSERT` oracle must have succeeded. -/
theorem insert_click_ok (w : World) (st : DbState)
    (params : List (String × String)) (ip ua ref : String)
    (h : (Database.insert_click w st params ip ua ref).1 = none) :
    (Database.insert_click w st params ip ua ref).2.1 =
      ⟨true, st.rows ++ [⟨json_dumps params, ip, ua, ref⟩]⟩ ∧
      w.execOutcome = none := by
  obtain ⟨url, cpo, cto, vo, eo⟩ := w
  obtain ⟨pool, rows⟩ := st
  cases pool <;> cases url <;> cases cpo <;> cases cto <;> cases vo <;>
    cases eo <;>
    simp_all [Database.insert_click, Database.connect]

/-- A failed append never adds a row. -/
theorem insert_click_err (w : World) (st : DbState)
    (params : List (String × String)) (ip ua ref : String) (e : PyError)
    (h : (Database.insert_click w st params ip ua ref).1 = some e) :
    (Database.insert_click w st params ip ua ref).2.1.rows = st.rows := by
  obtain ⟨url, cpo, cto, vo, eo⟩ := w
  obtain ⟨pool, rows⟩ := st
  cases pool <;> cases url <;> cases cpo <;> cases cto <;> cases vo <;>
    cases eo <;>
    simp_all [Database.insert_click, Database.connect]

/-! ## Lemmas about the track handler -/

/-- With no transport peer address, line 42 raises before any storage
call and the outer handler answers 500 with the error page, leaving the
storage state untouched. -/
theorem track_utm_client_none (w : World) (req : TrackRequest)
    (st : DbState) (h : req.client = none) :
    track_utm w req st = ({ status := 500, content := error_html }, st) := by
  unfold track_utm
  rw [h]

/-- When the append fails, the handler answers 500 with the error page
and the table keeps exactly its previous rows. -/
theorem track_utm_insert_err (w : World) (req : TrackRequest)
    (st : DbState) (ip : String) (e : PyError)
    (hip : req.client = some ip)
    (hfail : (Database.insert_click w st (utm_params req) ip
        (headersGet req.headers "user-agent" "")
        (headersGet req.headers "referer" "")).1 = some e) :
    (track_utm w req st).1 = { status := 500, content := error_html } ∧
      (track_utm w req st).2.rows = st.rows := by
  have hrows := insert_click_err w st (utm_params req) ip
    (headersGet req.headers "user-agent" "")
    (headersGet req.headers "referer" "") e hfail
  unfold track_utm
  rw [hip]
  dsimp only
  rcases hres : Database.insert_click w st (utm_params req) ip
      (headersGet req.headers "user-agent" "")
      (headersGet req.headers "referer" "") with ⟨r1, st1, logs⟩
  rw [hres] at hfail hrows
  simp only at hfail
  subst hfail
  simp only at hrows
  exact ⟨rfl, hrows⟩

/-- When the append succeeds, the handler answers 200 with the success
page rendered from the captured parameters, and exactly one new row —
holding their `json.dumps` serialization and the request metadata — is
appended to the table. -/
theorem track_utm_insert_ok (w : World) (req : TrackRequest)
    (st : DbState) (ip : String)
    (hip : req.client = some ip)
    (hok : (Database.insert_click w st (utm_params req) ip
        (headersGet req.headers "user-agent" "")
        (headersGet req.headers "referer" "")).1 = none) :
    track_utm w req st =
      ({ status := 200, content := success_page (utm_params req) },
        ⟨true, st.rows ++
          [⟨json_dumps (utm_params req), ip,
            headersGet req.headers "user-agent" "",
            headersGet req.headers "referer" ""⟩]⟩) := by
  have hst := insert_click_ok w st (utm_params req) ip
    (headersGet req.headers "user-agent" "")
    (headersGet req.headers "referer" "") hok
  unfold track_utm
  rw [hip]
  dsimp only
  rcases hres : Database.insert_click w st (utm_params req) ip
      (headersGet req.headers "user-agent" "")
      (headersGet req.headers "referer" "") with ⟨r1, st1, logs⟩
  rw [hres] at hok hst
  simp only at hok hst
  subst hok
  rw [hst.1]

/-! ## Lemmas about the rendered pages -/

/-- Anything among the joined strings appears verbatim inside the join. -/
theorem infix_pyJoin {x : String} {l : List String} (h : x ∈ l)
    (sep : String) : x.data <:+: (pyJoin sep l).data := by
  induction l with
  | nil => cases h
  | cons y t ih =>
    cases t with
    | nil =>
      rw [List.mem_singleton] at h
      subst h
      exact ⟨[], [], by simp [pyJoin]⟩
    | cons z t2 =>
      rcases List.mem_cons.mp h with rfl | h2
      · refine ⟨[], (sep ++ pyJoin sep (z :: t2)).data, ?_⟩
        rw [show pyJoin sep (x :: z :: t2) =
              x ++ sep ++ pyJoin sep (z :: t2) from rfl]
        simp [String.data_append]
      · obtain ⟨s, t3, hst⟩ := ih h2
        refine ⟨(y ++ sep).data ++ s, t3, ?_⟩
        rw [show pyJoin sep (y :: z :: t2) =
              y ++ sep ++ pyJoin sep (z :: t2) from rfl]
        simp only [String.data_append, List.append_assoc] at hst ⊢
        rw [← hst]

/-- Every captured pair appears verbatim, unescaped, as its own list
item inside the rendered success page. -/
theorem success_page_contains_item {params : List (String × String)}
    {k v : String} (h : (k, v) ∈ params) :
    ("<li>• " ++ k ++ ": " ++ v ++ "</li>").data <:+:
      (success_page params).data := by
  have hitem : ("<li>• " ++ k ++ ": " ++ v ++ "</li>") ∈
      utm_html_items params := by
    unfold utm_html_items
    cases params with
    | nil => cases h
    | cons p t =>
      exact List.mem_map.mpr ⟨(k, v), h, rfl⟩
  obtain ⟨s, t, hst⟩ := infix_pyJoin hitem "\n            "
  refine ⟨success_pre.data ++ s, t ++ success_post.data, ?_⟩
  unfold success_page
  simp only [String.data_append, List.append_assoc] at hst ⊢
  rw [← hst]
  simp only [List.append_assoc]

set_option maxRecDepth 100000 in
/-- The error page is never equal to a success page: they already
differ at character 53 (`' '` in the error title, `'<'` after the
success title). -/
theorem error_html_ne_success_page (params : List (String × String)) :
    error_html ≠ success_page params := by
  intro h
  have h1 : error_html.data[53]? = (success_page params).data[53]? := by
    rw [h]
  rw [show (success_page params).data =
      success_pre.data ++
        (pyJoin "\n            " (utm_html_items params) ++
          success_post).data from by
    unfold success_page
    rw [String.data_append, String.data_append, String.data_append,
      List.append_assoc]] at h1
  rw [List.getElem?_append_left (by decide)] at h1
  have h2 : error_html.data[53]? = some ' ' := by decide
  have h3 : success_pre.data[53]? = some '<' := by decide
  rw [h2, h3] at h1
  exact absurd h1 (by decide)

/-! ## The claims -/

/-- C1: for every incoming query string, the parameter set forwarded to
storage and rendered on the page is exactly the subset of the request's
query-parameter pairs whose key starts with `utm_`: membership in the
captured mapping is equivalent to membership in the query-parameter view
with the `utm_` prefix; the stored document deserializes back to exactly
that mapping (so a key without the prefix never appears in it); and the
rendered page is the success template instantiated with exactly that
mapping. -/
theorem claim_C1_utm_filter (w : World) (req : TrackRequest) (st : DbState)
    (ip : String)
    (hip : req.client = some ip)
    (hok : (Database.insert_click w st (utm_params req) ip
        (headersGet req.headers "user-agent" "")
        (headersGet req.headers "referer" "")).1 = none) :
    (∀ k v, (k, v) ∈ utm_params req ↔
      ((k, v) ∈ pyDict req.query_params ∧ pyStartswith k "utm_" = true)) ∧
    (track_utm w req st).2.rows =
      st.rows ++ [⟨json_dumps (utm_params req), ip,
        headersGet req.headers "user-agent" "",
        headersGet req.headers "referer" ""⟩] ∧
    json_loads (json_dumps (utm_params req)) = some (utm_params req) ∧
    (track_utm w req st).1 =
      { status := 200, content := success_page (utm_params req) } := by
  have h := track_utm_insert_ok w req st ip hip hok
  refine ⟨fun k v => mem_utm_params, ?_, json_loads_dumps _, ?_⟩
  · rw [h]
  · rw [h]

/-- Witness for C1 at the spec's example scenario
`GET /track?utm_source=ads&utm_medium=cpc&ref=ignored`. -/
theorem claim_C1_utm_filter_witness :
    (⟨[("utm_source", "ads"), ("utm_medium", "cpc"), ("ref", "ignored")],
        some "203.0.113.7",
        [("user-agent", "TestAgent/1.0")]⟩ : TrackRequest).client =
      some "203.0.113.7" ∧
    (Database.insert_click ⟨some "postgresql://app@db/utm", none, none,
        none, none⟩ ⟨true, []⟩
      (utm_params ⟨[("utm_source", "ads"), ("utm_medium", "cpc"),
          ("ref", "ignored")], some "203.0.113.7",
          [("user-agent", "TestAgent/1.0")]⟩)
      "203.0.113.7"
      (headersGet [("user-agent", "TestAgent/1.0")] "user-agent" "")
      (headersGet [("user-agent", "TestAgent/1.0")] "referer" "")).1 =
      none ∧
    ((∀ k v,
        (k, v) ∈ utm_params ⟨[("utm_source", "ads"), ("utm_medium", "cpc"),
            ("ref", "ignored")], some "203.0.113.7",
            [("user-agent", "TestAgent/1.0")]⟩ ↔
          ((k, v) ∈ pyDict [("utm_source", "ads"), ("utm_medium", "cpc"),
              ("ref", "ignored")] ∧ pyStartswith k "utm_" = true)) ∧
      (track_utm ⟨some "postgresql://app@db/utm", none, none, none, none⟩
          ⟨[("utm_source", "ads"), ("utm_medium", "cpc"), ("ref", "ignored")],
            some "203.0.113.7", [("user-agent", "TestAgent/1.0")]⟩
          ⟨true, []⟩).2.rows =
        [] ++ [⟨json_dumps (utm_params ⟨[("utm_source", "ads"),
            ("utm_medium", "cpc"), ("ref", "ignored")], some "203.0.113.7",
            [("user-agent", "TestAgent/1.0")]⟩), "203.0.113.7",
          headersGet [("user-agent", "TestAgent/1.0")] "user-agent" "",
          headersGet [("user-agent", "TestAgent/1.0")] "referer" ""⟩] ∧
      json_loads (json_dumps (utm_params ⟨[("utm_source", "ads"),
          ("utm_medium", "cpc"), ("ref", "ignored")], some "203.0.113.7",
          [("user-agent", "TestAgent/1.0")]⟩)) =
        some (utm_params ⟨[("utm_source", "ads"), ("utm_medium", "cpc"),
          ("ref", "ignored")], some "203.0.113.7",
          [("user-agent", "TestAgent/1.0")]⟩) ∧
      (track_utm ⟨some "postgresql://app@db/utm", none, none, none, none⟩
          ⟨[("utm_source", "ads"), ("utm_medium", "cpc"), ("ref", "ignored")],
            some "203.0.113.7", [("user-agent", "TestAgent/1.0")]⟩
          ⟨true, []⟩).1 =
        { status := 200,
          content := success_page (utm_params ⟨[("utm_source", "ads"),
            ("utm_medium", "cpc"), ("ref", "ignored")], some "203.0.113.7",
            [("user-agent", "TestAgent/1.0")]⟩) }) :=
  ⟨rfl, rfl,
    claim_C1_utm_filter ⟨some "postgresql://app@db/utm", none, none, none,
        none⟩
      ⟨[("utm_source", "ads"), ("utm_medium", "cpc"), ("ref", "ignored")],
        some "203.0.113.7", [("user-agent", "TestAgent/1.0")]⟩
      ⟨true, []⟩ "203.0.113.7" rfl rfl⟩

/-- C2: whenever the storage append fails, the track handler answers
with the error HTML page and status 500, that page is never the success
page (for any parameter set), and the storage table keeps exactly its
previous rows. -/
theorem claim_C2_storage_failure (w : World) (req : TrackRequest)
    (st : DbState) (ip : String) (e : PyError)
    (hip : req.client = some ip)
    (hfail : (Database.insert_click w st (utm_params req) ip
        (headersGet req.headers "user-agent" "")
        (headersGet req.headers "referer" "")).1 = some e) :
    (track_utm w req st).1 = { status := 500, content := error_html } ∧
    (∀ params, error_html ≠ success_page params) ∧
    (track_utm w req st).2.rows = st.rows := by
  obtain ⟨h1, h2⟩ := track_utm_insert_err w req st ip e hip hfail
  exact ⟨h1, error_html_ne_success_page, h2⟩

/-- Witness for C2: an `INSERT` rejected with `InterfaceError` on a
pool-initialized state with one pre-existing row. -/
theorem claim_C2_storage_failure_witness :
    (⟨[("utm_source", "ads")], some "203.0.113.7", []⟩ :
        TrackRequest).client = some "203.0.113.7" ∧
    (Database.insert_click
        ⟨some "postgresql://app@db/utm", none, none, none,
          some ⟨"InterfaceError", "pool is closed"⟩⟩
        ⟨true, [⟨"\x7b\x7d", "10.0.0.1", "", ""⟩]⟩
        (utm_params ⟨[("utm_source", "ads")], some "203.0.113.7", []⟩)
        "203.0.113.7" (headersGet [] "user-agent" "")
        (headersGet [] "referer" "")).1 =
      some ⟨"InterfaceError", "pool is closed"⟩ ∧
    ((track_utm
        ⟨some "postgresql://app@db/utm", none, none, none,
          some ⟨"InterfaceError", "pool is closed"⟩⟩
        ⟨[("utm_source", "ads")], some "203.0.113.7", []⟩
        ⟨true, [⟨"\x7b\x7d", "10.0.0.1", "", ""⟩]⟩).1 =
      { status := 500, content := error_html } ∧
    (∀ params, error_html ≠ success_page params) ∧
    (track_utm
        ⟨some "postgresql://app@db/utm", none, none, none,
          some ⟨"InterfaceError", "pool is closed"⟩⟩
        ⟨[("utm_source", "ads")], some "203.0.113.7", []⟩
        ⟨true, [⟨"\x7b\x7d", "10.0.0.1", "", ""⟩]⟩).2.rows =
      [⟨"\x7b\x7d", "10.0.0.1", "", ""⟩]) :=
  ⟨rfl, rfl,
    claim_C2_storage_failure
      ⟨some "postgresql://app@db/utm", none, none, none,
        some ⟨"InterfaceError", "pool is closed"⟩⟩
      ⟨[("utm_source", "ads")], some "203.0.113.7", []⟩
      ⟨true, [⟨"\x7b\x7d", "10.0.0.1", "", ""⟩]⟩
      "203.0.113.7" ⟨"InterfaceError", "pool is closed"⟩ rfl rfl⟩

/-- C3 counterexample: with the same `utm_` key sent twice, the pair
from the first occurrence is dropped: the captured mapping holds only
the last occurrence, so duplicate occurrences are NOT preserved. -/
theorem claim_C3_counterexample :
    ("utm_source", "a") ∈
      ([("utm_source", "a"), ("utm_source", "b")] :
        List (String × String)) ∧
    pyStartswith "utm_source" "utm_" = true ∧
    utm_params ⟨[("utm_source", "a"), ("utm_source", "b")],
        some "203.0.113.7", []⟩ = [("utm_source", "b")] ∧
    ("utm_source", "a") ∉
      utm_params ⟨[("utm_source", "a"), ("utm_source", "b")],
        some "203.0.113.7", []⟩ :=
  ⟨by decide, by decide, by decide, by decide⟩

/-- C3 amended: the handler keeps every `utm_`-prefixed key of the query
string but collapses duplicate occurrences through the dict view of the
query parameters: a pair is captured exactly when its key has the
`utm_` prefix and its value is the one of the key's LAST occurrence in
the query string (so no duplicate pairs survive). -/
theorem claim_C3_amended (req : TrackRequest) (k v : String) :
    (k, v) ∈ utm_params req ↔
      (pyStartswith k "utm_" = true ∧
        req.query_params.reverse.find? (fun p => p.1 = k) =
          some (k, v)) := by
  rw [mem_utm_params, mem_pyDict]
  tauto

/-- C4: when no query key carries the `utm_` prefix, the rendered list
holds exactly one item — the placeholder — the page is the success
template around that single item, and the stored document is the
serialized empty mapping (two braces, deserializing to the empty
mapping, and not the text `null`). -/
theorem claim_C4_no_params (w : World) (req : TrackRequest) (st : DbState)
    (ip : String)
    (hip : req.client = some ip)
    (hok : (Database.insert_click w st (utm_params req) ip
        (headersGet req.headers "user-agent" "")
        (headersGet req.headers "referer" "")).1 = none)
    (hempty : utm_params req = []) :
    utm_html_items (utm_params req) =
      ["<li>• No UTM parameters detected</li>"] ∧
    (track_utm w req st).1.content =
      success_pre ++ "<li>• No UTM parameters detected</li>" ++
        success_post ∧
    (track_utm w req st).2.rows =
      st.rows ++ [⟨json_dumps [], ip,
        headersGet req.headers "user-agent" "",
        headersGet req.headers "referer" ""⟩] ∧
    json_dumps [] = String.mk [lbrace, rbrace] ∧
    json_loads (json_dumps []) = some [] ∧
    json_dumps [] ≠ "null" := by
  have h := track_utm_insert_ok w req st ip hip hok
  rw [h, hempty]
  exact ⟨rfl, rfl, rfl, rfl, rfl, by decide⟩

/-- Witness for C4 at a request whose only query key lacks the prefix. -/
theorem claim_C4_no_params_witness :
    (⟨[("ref", "ignored")], some "203.0.113.7", []⟩ :
        TrackRequest).client = some "203.0.113.7" ∧
    (Database.insert_click ⟨some "postgresql://app@db/utm", none, none,
        none, none⟩ ⟨true, []⟩
      (utm_params ⟨[("ref", "ignored")], some "203.0.113.7", []⟩)
      "203.0.113.7" (headersGet [] "user-agent" "")
      (headersGet [] "referer" "")).1 = none ∧
    utm_params (⟨[("ref", "ignored")], some "203.0.113.7", []⟩ :
      TrackRequest) = [] ∧
    (utm_html_items (utm_params (⟨[("ref", "ignored")], some "203.0.113.7",
        []⟩ : TrackRequest)) =
      ["<li>• No UTM parameters detected</li>"] ∧
    (track_utm ⟨some "postgresql://app@db/utm", none, none, none, none⟩
        ⟨[("ref", "ignored")], some "203.0.113.7", []⟩ ⟨true, []⟩).1.content =
      success_pre ++ "<li>• No UTM parameters detected</li>" ++
        success_post ∧
    (track_utm ⟨some "postgresql://app@db/utm", none, none, none, none⟩
        ⟨[("ref", "ignored")], some "203.0.113.7", []⟩ ⟨true, []⟩).2.rows =
      [] ++ [⟨json_dumps [], "203.0.113.7", headersGet [] "user-agent" "",
        headersGet [] "referer" ""⟩] ∧
    json_dumps [] = String.mk [lbrace, rbrace] ∧
    json_loads (json_dumps []) = some [] ∧
    json_dumps [] ≠ "null") :=
  ⟨rfl, rfl, by decide,
    claim_C4_no_params ⟨some "postgresql://app@db/utm", none, none, none,
        none⟩
      ⟨[("ref", "ignored")], some "203.0.113.7", []⟩ ⟨true, []⟩
      "203.0.113.7" rfl rfl (by decide)⟩

/-- C5: for every string-to-string mapping, a successful append stores
exactly one row whose document is the `json.dumps` serialization of the
mapping, and deserializing that stored document yields back exactly the
same mapping — every key–value pair intact, values unmodified. -/
theorem claim_C5_roundtrip (w : World) (st : DbState)
    (params : List (String × String)) (ip ua ref : String)
    (hok : (Database.insert_click w st params ip ua ref).1 = none) :
    ∃ row,
      (Database.insert_click w st params ip ua ref).2.1.rows =
        st.rows ++ [row] ∧
      row.utm_params = json_dumps params ∧
      json_loads row.utm_params = some params := by
  have h := insert_click_ok w st params ip ua ref hok
  exact ⟨_, by rw [h.1], rfl, json_loads_dumps params⟩

/-- Witness for C5 at the spec's example mapping
`\x7b"utm_source": "newsletter", "utm_campaign": "spring"\x7d`. -/
theorem claim_C5_roundtrip_witness :
    (Database.insert_click ⟨some "postgresql://app@db/utm", none, none,
        none, none⟩ ⟨true, []⟩
      [("utm_source", "newsletter"), ("utm_campaign", "spring")]
      "203.0.113.7" "TestAgent/1.0" "").1 = none ∧
    ∃ row,
      (Database.insert_click ⟨some "postgresql://app@db/utm", none, none,
          none, none⟩ ⟨true, []⟩
        [("utm_source", "newsletter"), ("utm_campaign", "spring")]
        "203.0.113.7" "TestAgent/1.0" "").2.1.rows = [] ++ [row] ∧
      row.utm_params =
        json_dumps [("utm_source", "newsletter"),
          ("utm_campaign", "spring")] ∧
      json_loads row.utm_params =
        some [("utm_source", "newsletter"), ("utm_campaign", "spring")] :=
  ⟨rfl,
    claim_C5_roundtrip ⟨some "postgresql://app@db/utm", none, none, none,
        none⟩ ⟨true, []⟩
      [("utm_source", "newsletter"), ("utm_campaign", "spring")]
      "203.0.113.7" "TestAgent/1.0" "" rfl⟩

/-- C6: an unexpected failure caught at the outer handler boundary (the
`AttributeError` from reading `request.client.host` when the peer
address is absent) yields the same fixed error page with the same 500
status as a storage failure: the two failure responses are equal, so
the caller cannot distinguish them, and neither carries any exception
detail (the body is the constant `error_html`, independent of the
error). -/
theorem claim_C6_uniform_errors (w₁ : World) (req₁ : TrackRequest)
    (st₁ : DbState) (w₂ : World) (req₂ : TrackRequest) (st₂ : DbState)
    (ip : String) (e : PyError)
    (hclient : req₁.client = none)
    (hip : req₂.client = some ip)
    (hfail : (Database.insert_click w₂ st₂ (utm_params req₂) ip
        (headersGet req₂.headers "user-agent" "")
        (headersGet req₂.headers "referer" "")).1 = some e) :
    (track_utm w₁ req₁ st₁).1 =
      { status := 500, content := error_html } ∧
    (track_utm w₂ req₂ st₂).1 = (track_utm w₁ req₁ st₁).1 := by
  have h1 := track_utm_client_none w₁ req₁ st₁ hclient
  have h2 := (track_utm_insert_err w₂ req₂ st₂ ip e hip hfail).1
  rw [h1, h2]
  exact ⟨rfl, rfl⟩

/-- Witness for C6: a request without a transport peer address against
a request whose `INSERT` fails. -/
theorem claim_C6_uniform_errors_witness :
    (⟨[("utm_source", "ads")], none, []⟩ : TrackRequest).client = none ∧
    (⟨[("utm_source", "ads")], some "203.0.113.7", []⟩ :
        TrackRequest).client = some "203.0.113.7" ∧
    (Database.insert_click
        ⟨some "postgresql://app@db/utm", none, none, none,
          some ⟨"UniqueViolationError", "insert rejected"⟩⟩
        ⟨true, []⟩
        (utm_params ⟨[("utm_source", "ads")], some "203.0.113.7", []⟩)
        "203.0.113.7" (headersGet [] "user-agent" "")
        (headersGet [] "referer" "")).1 =
      some ⟨"UniqueViolationError", "insert rejected"⟩ ∧
    ((track_utm ⟨some "postgresql://app@db/utm", none, none, none, none⟩
        ⟨[("utm_source", "ads")], none, []⟩ ⟨true, []⟩).1 =
      { status := 500, content := error_html } ∧
    (track_utm
        ⟨some "postgresql://app@db/utm", none, none, none,
          some ⟨"UniqueViolationError", "insert rejected"⟩⟩
        ⟨[("utm_source", "ads")], some "203.0.113.7", []⟩ ⟨true, []⟩).1 =
      (track_utm ⟨some "postgresql://app@db/utm", none, none, none, none⟩
        ⟨[("utm_source", "ads")], none, []⟩ ⟨true, []⟩).1) :=
  ⟨rfl, rfl, rfl,
    claim_C6_uniform_errors
      ⟨some "postgresql://app@db/utm", none, none, none, none⟩
      ⟨[("utm_source", "ads")], none, []⟩ ⟨true, []⟩
      ⟨some "postgresql://app@db/utm", none, none, none,
        some ⟨"UniqueViolationError", "insert rejected"⟩⟩
      ⟨[("utm_source", "ads")], some "203.0.113.7", []⟩ ⟨true, []⟩
      "203.0.113.7" ⟨"UniqueViolationError", "insert rejected"⟩
      rfl rfl rfl⟩

/-- C7: the `/health` route answers 200 with exactly the JSON text
`\x7b"status":"ok"\x7d`, whatever the storage state and the storage
oracles are — the handler reads neither, so its response is one fixed
value. -/
theorem claim_C7_health (w w' : World) (st st' : DbState) :
    health_check w st = { status := 200, content := "\x7b\"status\":\"ok\"\x7d" } ∧
    health_check w st = health_check w' st' := by
  have hc : String.mk (lbrace :: "\"status\":\"ok\"".data ++ [rbrace]) =
      "\x7b\"status\":\"ok\"\x7d" := by decide
  exact ⟨by rw [health_check, hc], rfl⟩

/-- C8 counterexample: with the pool never initialized and
`asyncpg.create_pool` failing during the lazy initialization, the
append raises that connection error even though the underlying `INSERT`
never failed, and no log line at all is emitted by the gateway — in
particular none carrying the error's category and message. -/
theorem claim_C8_counterexample :
    (Database.insert_click
        ⟨some "postgresql://app@db/utm",
          some ⟨"ConnectionDoesNotExistError", "connection refused"⟩,
          none, none, none⟩
        ⟨false, []⟩ [("utm_source", "ads")] "203.0.113.7" "" "").1 =
      some ⟨"ConnectionDoesNotExistError", "connection refused"⟩ ∧
    (⟨some "postgresql://app@db/utm",
        some ⟨"ConnectionDoesNotExistError", "connection refused"⟩,
        none, none, none⟩ : World).execOutcome = none ∧
    (Database.insert_click
        ⟨some "postgresql://app@db/utm",
          some ⟨"ConnectionDoesNotExistError", "connection refused"⟩,
          none, none, none⟩
        ⟨false, []⟩ [("utm_source", "ads")] "203.0.113.7" "" "").2.2 =
      [] :=
  ⟨by decide, rfl, by decide⟩

/-- C8 amended: once the pool is initialized — directly, or through the
lazy initialization `append` performs first when it is not — `append`
raises exactly when the underlying `INSERT` fails, and it then logs the
line `Database insert failed: <category>: <message>` before re-raising
the same error (no retry, no partial success); a failure of the lazy
initialization itself propagates to the caller instead. -/
theorem claim_C8_amended (w : World) (st : DbState)
    (params : List (String × String)) (ip ua ref : String) :
    (st.poolInitialized = true →
      (∀ e, ((Database.insert_click w st params ip ua ref).1 = some e ↔
          w.execOutcome = some e)) ∧
      (∀ e, w.execOutcome = some e →
        ("Database insert failed: " ++ e.name ++ ": " ++ e.msg) ∈
          (Database.insert_click w st params ip ua ref).2.2)) ∧
    (st.poolInitialized = false →
      (Database.connect w st).1 = none →
      (Database.insert_click w st params ip ua ref).2.1.poolInitialized =
          true ∧
      (∀ e, ((Database.insert_click w st params ip ua ref).1 = some e ↔
          w.execOutcome = some e)) ∧
      (∀ e, w.execOutcome = some e →
        ("Database insert failed: " ++ e.name ++ ": " ++ e.msg) ∈
          (Database.insert_click w st params ip ua ref).2.2)) := by
  obtain ⟨url, cpo, cto, vo, eo⟩ := w
  obtain ⟨pool, rows⟩ := st
  cases pool <;> cases url <;> cases cpo <;> cases cto <;> cases vo <;>
    cases eo <;>
    simp_all [Database.insert_click, Database.connect]

/-- Witness for C8 (amended): a rejected `INSERT` on an initialized
pool raises that same error and logs its category and message. -/
theorem claim_C8_amended_witness :
    (⟨true, []⟩ : DbState).poolInitialized = true ∧
    ((Database.insert_click
        ⟨some "postgresql://app@db/utm", none, none, none,
          some ⟨"UniqueViolationError", "insert rejected"⟩⟩
        ⟨true, []⟩ [] "203.0.113.7" "" "").1 =
        some ⟨"UniqueViolationError", "insert rejected"⟩ ↔
      (⟨some "postgresql://app@db/utm", none, none, none,
          some ⟨"UniqueViolationError", "insert rejected"⟩⟩ :
        World).execOutcome =
        some ⟨"UniqueViolationError", "insert rejected"⟩) ∧
    ("Database insert failed: UniqueViolationError: insert rejected" ∈
      (Database.insert_click
        ⟨some "postgresql://app@db/utm", none, none, none,
          some ⟨"UniqueViolationError", "insert rejected"⟩⟩
        ⟨true, []⟩ [] "203.0.113.7" "" "").2.2) :=
  ⟨rfl,
    ((claim_C8_amended
        ⟨some "postgresql://app@db/utm", none, none, none,
          some ⟨"UniqueViolationError", "insert rejected"⟩⟩
        ⟨true, []⟩ [] "203.0.113.7" "" "").1 rfl).1
      ⟨"UniqueViolationError", "insert rejected"⟩,
    by
      have h := ((claim_C8_amended
          ⟨some "postgresql://app@db/utm", none, none, none,
            some ⟨"UniqueViolationError", "insert rejected"⟩⟩
          ⟨true, []⟩ [] "203.0.113.7" "" "").1 rfl).2
        ⟨"UniqueViolationError", "insert rejected"⟩ rfl
      simpa using h⟩

/-- C9: when the transport peer address is unavailable, reading
`request.client.host` on line 42 raises before any storage call; the
outer boundary converts it to the 500 error page and the storage state
— in particular the table — is returned exactly unchanged, so no record
(with or without a client address) is produced. -/
theorem claim_C9_client_none (w : World) (req : TrackRequest)
    (st : DbState) (h : req.client = none) :
    (track_utm w req st).1 = { status := 500, content := error_html } ∧
    (track_utm w req st).2 = st := by
  rw [track_utm_client_none w req st h]
  exact ⟨rfl, rfl⟩

/-- Witness for C9. -/
theorem claim_C9_client_none_witness :
    (⟨[("utm_source", "ads")], none, [("user-agent", "TestAgent/1.0")]⟩ :
        TrackRequest).client = none ∧
    ((track_utm ⟨some "postgresql://app@db/utm", none, none, none, none⟩
        ⟨[("utm_source", "ads")], none, [("user-agent", "TestAgent/1.0")]⟩
        ⟨true, []⟩).1 = { status := 500, content := error_html } ∧
    (track_utm ⟨some "postgresql://app@db/utm", none, none, none, none⟩
        ⟨[("utm_source", "ads")], none, [("user-agent", "TestAgent/1.0")]⟩
        ⟨true, []⟩).2 = ⟨true, []⟩) :=
  ⟨rfl,
    claim_C9_client_none
      ⟨some "postgresql://app@db/utm", none, none, none, none⟩
      ⟨[("utm_source", "ads")], none, [("user-agent", "TestAgent/1.0")]⟩
      ⟨true, []⟩ rfl⟩

/-- C10: every captured key–value pair is embedded verbatim in the
response body by plain string formatting: the substring
`<li>• KEY: VALUE</li>` occurs in the returned page with the raw key
and value — no HTML escaping of any character, `<`, `>` and `"`
included. -/
theorem claim_C10_no_escaping (w : World) (req : TrackRequest)
    (st : DbState) (ip k v : String)
    (hip : req.client = some ip)
    (hok : (Database.insert_click w st (utm_params req) ip
        (headersGet req.headers "user-agent" "")
        (headersGet req.headers "referer" "")).1 = none)
    (hmem : (k, v) ∈ utm_params req) :
    ("<li>• " ++ k ++ ": " ++ v ++ "</li>").data <:+:
      ((track_utm w req st).1.content).data := by
  rw [track_utm_insert_ok w req st ip hip hok]
  exact success_page_contains_item hmem

/-- Witness for C10: a key and value carrying `<`, `>`, `"` and a
script tag reach the page verbatim. -/
theorem claim_C10_no_escaping_witness :
    (⟨[("utm_<b>", "\"><script>alert(1)</script>")],
        some "203.0.113.7", []⟩ : TrackRequest).client =
      some "203.0.113.7" ∧
    (Database.insert_click ⟨some "postgresql://app@db/utm", none, none,
        none, none⟩ ⟨true, []⟩
      (utm_params ⟨[("utm_<b>", "\"><script>alert(1)</script>")],
        some "203.0.113.7", []⟩)
      "203.0.113.7" (headersGet [] "user-agent" "")
      (headersGet [] "referer" "")).1 = none ∧
    ("utm_<b>", "\"><script>alert(1)</script>") ∈
      utm_params ⟨[("utm_<b>", "\"><script>alert(1)</script>")],
        some "203.0.113.7", []⟩ ∧
    ("<li>• " ++ "utm_<b>" ++ ": " ++ "\"><script>alert(1)</script>" ++
        "</li>").data <:+:
      ((track_utm ⟨some "postgresql://app@db/utm", none, none, none,
          none⟩
        ⟨[("utm_<b>", "\"><script>alert(1)</script>")],
          some "203.0.113.7", []⟩ ⟨true, []⟩).1.content).data :=
  ⟨rfl, rfl, by decide,
    claim_C10_no_escaping
      ⟨some "postgresql://app@db/utm", none, none, none, none⟩
      ⟨[("utm_<b>", "\"><script>alert(1)</script>")],
        some "203.0.113.7", []⟩
      ⟨true, []⟩ "203.0.113.7" "utm_<b>" "\"><script>alert(1)</script>"
      rfl rfl (by decide)⟩

end UtmReceiver
